import Mathlib

/-
  Verification of the mio memory-mapped file library (POSIX backend).

  Shallow embedding of:
    - include/mio/page.hpp          (page arithmetic)
    - include/mio/detail/mmap.ipp   (open_file, query_file_size, memory_map,
                                     basic_mmap map/unmap/sync/move)
    - include/mio/mmap.hpp          (basic_mmap accessors, sentinels)
    - include/mio/shared_mmap.hpp   (basic_shared_mmap wrapper)

  Modelling conventions:
    - Addresses and sizes are natural numbers; file handles are integers
      (POSIX file descriptors), with the sentinel invalid_handle = -1.
    - size_t arithmetic wraps modulo 2^64; the one place this matters in the
      modelled code is the bounds check in basic_mmap::map, where the sum
      offset + length is taken modulo 2^64.
    - OS calls are an oracle (structure OS): fstat sizes, mmap base addresses,
      open results and msync successes are unconstrained parameters.
    - System calls that acquire or release OS resources are recorded in an
      event trace (List Event), in program order, so that claims about the
      order of resource acquisition/release can be stated.
    - A null pointer is Option.none; a failed OS call is the oracle returning
      none (for fstat/mmap) or -1 (for open).
-/

namespace Mio

/-- Modulus of size_t arithmetic (64-bit). -/
def size_t_mod : Nat := 2 ^ 64

/-- POSIX sentinel for an invalid file handle (mmap.hpp line 139): -1. -/
def invalid_handle : Int := -1

/-- Sentinel length value meaning "map the rest of the file" (mmap.hpp line 103). -/
def map_entire_file : Nat := 0

/-- access_mode from page.hpp: read-only or read-write mapping. -/
inductive access_mode where
  | read
  | write
  deriving DecidableEq

/-- make_offset_page_aligned from page.hpp lines 136-143:
    offset / page_size * page_size, parametrized by the cached page size. -/
def make_offset_page_aligned (page_size offset : Nat) : Nat :=
  offset / page_size * page_size

/-- OS oracle: the results of the system calls the library makes.
    fstat_size none / mmap_sys none / open_file_sys = -1 model call failure. -/
structure OS where
  page_size : Nat
  open_file_sys : String → Int
  fstat_size : Int → Option Nat
  mmap_sys : Int → Nat → Nat → Option Nat
  msync_ok : Nat → Nat → Bool

/-- Trace events: the OS calls issued by the library, in program order. -/
inductive Event where
  | open_call (path : String) (result : Int)
  | fstat_call (handle : Int)
  | mmap_call (handle : Int) (aligned_offset length_to_map : Nat) (result : Option Nat)
  | munmap_call (start len : Nat)
  | close_call (handle : Int)
  | msync_call (start len : Nat)
  deriving DecidableEq

/-- An event that releases an OS resource (munmap of a mapping, close of a
    file handle). -/
def Event.is_release : Event → Bool
  | .munmap_call _ _ => true
  | .close_call _ => true
  | _ => false

/-- A trace that releases no OS resource. -/
def no_release (tr : List Event) : Bool :=
  tr.all (fun e => !e.is_release)

/-- Portable error codes surfaced by the library (std::errc values used in
    mmap.ipp, plus a generic captured system error). -/
inductive Err where
  | invalid_argument
  | bad_file_descriptor
  | sys
  deriving DecidableEq

/-- mmap_context from mmap.ipp lines 224-232 (POSIX: no file_mapping_handle). -/
structure mmap_context where
  data : Nat
  length : Nat
  mapped_length : Nat
  deriving DecidableEq

/-- detail::memory_map from mmap.ipp lines 255-330 (POSIX branch):
    aligns the offset down to a page boundary, maps extra + length bytes at
    the aligned offset, and returns the pointer adjusted back up to the
    requested offset. Returns the context (none on mmap failure) and the
    trace of the mmap call. -/
def memory_map (os : OS) (file_handle : Int) (offset length : Nat) :
    Option mmap_context × List Event :=
  let aligned_offset := make_offset_page_aligned os.page_size offset
  let length_to_map := offset - aligned_offset + length
  match os.mmap_sys file_handle aligned_offset length_to_map with
  | none =>
      (none, [Event.mmap_call file_handle aligned_offset length_to_map none])
  | some mapping_start =>
      (some { data := mapping_start + (offset - aligned_offset),
              length := length,
              mapped_length := length_to_map },
       [Event.mmap_call file_handle aligned_offset length_to_map (some mapping_start)])

/-- detail::open_file from mmap.ipp lines 158-183: empty path is an
    invalid_argument error before any OS call; otherwise the open result is
    checked against the invalid-handle sentinel. -/
def open_file (os : OS) (path : String) : Int × Option Err × List Event :=
  if path = "" then (invalid_handle, some Err.invalid_argument, [])
  else
    let handle := os.open_file_sys path
    if handle = invalid_handle then (handle, some Err.sys, [Event.open_call path handle])
    else (handle, none, [Event.open_call path handle])

/-- The state of a basic_mmap object (mmap.hpp lines 206-230, POSIX fields):
    data pointer, user length, mapped length, file handle, ownership flag. -/
structure basic_mmap where
  data_ : Option Nat
  length_ : Nat
  mapped_length_ : Nat
  file_handle_ : Int
  is_handle_internal_ : Bool
  deriving DecidableEq

/-- The default-constructed (unmapped) basic_mmap. -/
def basic_mmap.default : basic_mmap :=
  { data_ := none, length_ := 0, mapped_length_ := 0,
    file_handle_ := invalid_handle, is_handle_internal_ := false }

/-- basic_mmap::is_open (mmap.hpp line 378). -/
def basic_mmap.is_open (m : basic_mmap) : Bool :=
  m.file_handle_ != invalid_handle

/-- basic_mmap::is_mapped (mmap.ipp lines 626-634, POSIX branch = is_open). -/
def basic_mmap.is_mapped (m : basic_mmap) : Bool :=
  m.is_open

/-- basic_mmap::length (mmap.hpp line 424). -/
def basic_mmap.length (m : basic_mmap) : Nat := m.length_

/-- basic_mmap::size (mmap.hpp line 414). -/
def basic_mmap.size (m : basic_mmap) : Nat := m.length

/-- basic_mmap::mapped_length (mmap.hpp line 438). -/
def basic_mmap.mapped_length (m : basic_mmap) : Nat := m.mapped_length_

/-- basic_mmap::mapping_offset (mmap.hpp lines 454-457):
    mapped_length_ - length_. -/
def basic_mmap.mapping_offset (m : basic_mmap) : Nat :=
  m.mapped_length_ - m.length_

/-- basic_mmap::empty (mmap.hpp line 388). -/
def basic_mmap.empty (m : basic_mmap) : Bool :=
  m.length = 0

/-- basic_mmap::data, const overload (mmap.hpp line 479). -/
def basic_mmap.data (m : basic_mmap) : Option Nat := m.data_

/-- basic_mmap::get_mapping_start (mmap.hpp lines 796-805): null if data_
    is null, else data_ - mapping_offset(). -/
def basic_mmap.get_mapping_start (m : basic_mmap) : Option Nat :=
  match m.data_ with
  | none => none
  | some a => some (a - m.mapping_offset)

/-- basic_mmap::unmap (mmap.ipp lines 584-618): no-op when not open;
    otherwise munmap the region if the data pointer is non-null, close the
    file handle if internally owned, and reset data/lengths/handle to the
    unmapped state. The is_handle_internal_ flag is not reset (as in the
    source). Returns the new state and the trace of release calls. -/
def basic_mmap.unmap (m : basic_mmap) : basic_mmap × List Event :=
  if m.is_open = false then (m, [])
  else
    let munmap_events :=
      match m.data_ with
      | some a => [Event.munmap_call (a - m.mapping_offset) m.mapped_length_]
      | none => []
    let close_events :=
      if m.is_handle_internal_ then [Event.close_call m.file_handle_] else []
    ({ data_ := none, length_ := 0, mapped_length_ := 0,
       file_handle_ := invalid_handle,
       is_handle_internal_ := m.is_handle_internal_ },
     munmap_events ++ close_events)

/-- basic_mmap::map(handle, offset, length, error) from mmap.ipp lines
    479-532: validates the handle, queries the file size, checks
    offset + length (size_t addition, hence modulo 2^64) against the file
    size, maps (with the length-0 sentinel meaning rest of file), and only
    on mapping success unmaps the previous mapping and installs the new
    state with the ownership flag cleared. Returns the new state, the error,
    and the trace. -/
def basic_mmap.map_handle (m : basic_mmap) (os : OS) (handle : Int)
    (offset length : Nat) : basic_mmap × Option Err × List Event :=
  if handle = invalid_handle then (m, some Err.bad_file_descriptor, [])
  else
    match os.fstat_size handle with
    | none => (m, some Err.sys, [Event.fstat_call handle])
    | some file_size =>
      if (offset + length) % size_t_mod > file_size then
        (m, some Err.invalid_argument, [Event.fstat_call handle])
      else
        let eff_length := if length = map_entire_file then file_size - offset else length
        let mm := memory_map os handle offset eff_length
        match mm.1 with
        | none => (m, some Err.sys, Event.fstat_call handle :: mm.2)
        | some ctx =>
            ({ data_ := some ctx.data, length_ := ctx.length,
               mapped_length_ := ctx.mapped_length, file_handle_ := handle,
               is_handle_internal_ := false },
             none,
             (Event.fstat_call handle :: mm.2) ++ m.unmap.2)

/-- basic_mmap::map(path, offset, length, error) from mmap.ipp lines
    437-466: rejects an empty path, opens the file, delegates to the handle
    overload, and marks the handle internally owned only when no error
    occurred. On failure of the handle overload the opened handle is not
    closed (there is no close call on that path in the source). -/
def basic_mmap.map_path (m : basic_mmap) (os : OS) (path : String)
    (offset length : Nat) : basic_mmap × Option Err × List Event :=
  if path = "" then (m, some Err.invalid_argument, [])
  else
    let op := open_file os path
    match op.2.1 with
    | some e => (m, some e, op.2.2)
    | none =>
      let mh := m.map_handle os op.1 offset length
      match mh.2.1 with
      | some e => (mh.1, some e, op.2.2 ++ mh.2.2)
      | none =>
          ({ mh.1 with is_handle_internal_ := true }, none, op.2.2 ++ mh.2.2)

/-- Move construction (mmap.ipp lines 357-375): the destination copies every
    field; the source's data pointer, lengths and file handle are reset to
    the unmapped sentinels, while its is_handle_internal_ flag keeps its old
    value (the source does not reset it). Result: (destination, source). -/
def basic_mmap.move_construct (other : basic_mmap) : basic_mmap × basic_mmap :=
  (other,
   { data_ := none, length_ := 0, mapped_length_ := 0,
     file_handle_ := invalid_handle,
     is_handle_internal_ := other.is_handle_internal_ })

/-- Move assignment (mmap.ipp lines 382-411), non-self-assignment path:
    the destination first unmaps its current mapping, then takes every field
    from the source; the source is fully reset (including the ownership
    flag, line 408). Result: (destination, source, release trace). -/
def basic_mmap.move_assign (dest other : basic_mmap) :
    basic_mmap × basic_mmap × List Event :=
  (other,
   { data_ := none, length_ := 0, mapped_length_ := 0,
     file_handle_ := invalid_handle, is_handle_internal_ := false },
   dest.unmap.2)

/-- basic_mmap::sync (mmap.ipp lines 542-571): error when not open; msync
    only when the data pointer is non-null, reporting the oracle's verdict. -/
def basic_mmap.sync (m : basic_mmap) (os : OS) : Option Err × List Event :=
  if m.is_open = false then (some Err.bad_file_descriptor, [])
  else
    match m.get_mapping_start with
    | none => (none, [])
    | some start =>
        if os.msync_ok start m.mapped_length_
        then (none, [Event.msync_call start m.mapped_length_])
        else (some Err.sys, [Event.msync_call start m.mapped_length_])

/-- Destructor (mmap.ipp lines 344-349 and 665-675): conditional_sync (a
    sync whose error is discarded, write mode only) followed by unmap.
    Returns the trace of OS calls made. -/
def basic_mmap.destruct (m : basic_mmap) (os : OS) (mode : access_mode) :
    List Event :=
  (match mode with
   | access_mode.write => (m.sync os).2
   | access_mode.read => []) ++ m.unmap.2

/-- The invariant of mmap.hpp / spec section 3: an invalid file handle means
    the object holds no mapping (null data, zero lengths). -/
def basic_mmap.unmapped_inv (m : basic_mmap) : Prop :=
  m.file_handle_ = invalid_handle →
    m.data_ = none ∧ m.length_ = 0 ∧ m.mapped_length_ = 0

instance : DecidablePred basic_mmap.unmapped_inv := fun m => by
  unfold basic_mmap.unmapped_inv
  infer_instance

/-- A concrete oracle for witnesses: page size 16, opening "f" yields
    descriptor 5, file 5 has 100 bytes, file 3 has 10 bytes, every mmap
    succeeds at base address 4096. -/
def os_ok : OS :=
  { page_size := 16
    open_file_sys := fun p => if p = "f" then 5 else -1
    fstat_size := fun h => if h = 5 then some 100 else if h = 3 then some 10 else none
    mmap_sys := fun _ _ _ => some 4096
    msync_ok := fun _ _ => true }

/-- An oracle whose file-size query always fails (bad descriptor). -/
def os_badstat : OS :=
  { os_ok with fstat_size := fun _ => none }

/-- The trace of memory_map is a single mmap call at the aligned offset with
    the padded length, recording the oracle's verdict. -/
theorem memory_map_trace (os : OS) (fh : Int) (offset length : Nat) :
    (memory_map os fh offset length).2 =
      [Event.mmap_call fh (make_offset_page_aligned os.page_size offset)
        (offset - make_offset_page_aligned os.page_size offset + length)
        (os.mmap_sys fh (make_offset_page_aligned os.page_size offset)
          (offset - make_offset_page_aligned os.page_size offset + length))] := by
  unfold memory_map
  rcases h : os.mmap_sys fh (make_offset_page_aligned os.page_size offset)
      (offset - make_offset_page_aligned os.page_size offset + length) with _ | b <;>
    simp [h]

/-- The context returned by memory_map, as a function of the oracle result. -/
theorem memory_map_fst (os : OS) (fh : Int) (offset length : Nat) :
    (memory_map os fh offset length).1 =
      (os.mmap_sys fh (make_offset_page_aligned os.page_size offset)
        (offset - make_offset_page_aligned os.page_size offset + length)).map
        (fun b =>
          { data := b + (offset - make_offset_page_aligned os.page_size offset),
            length := length,
            mapped_length := offset - make_offset_page_aligned os.page_size offset + length }) := by
  unfold memory_map
  rcases h : os.mmap_sys fh (make_offset_page_aligned os.page_size offset)
      (offset - make_offset_page_aligned os.page_size offset + length) with _ | b <;>
    simp [h]

/-- Claim C7: make_offset_page_aligned(offset) is the largest multiple of the
    page size that is at most offset; in particular it is at most offset and
    the residue offset - make_offset_page_aligned(offset) is below the page
    size (page.hpp lines 136-143). -/
theorem make_offset_page_aligned_contract (page_size offset : Nat)
    (hp : 0 < page_size) :
    page_size ∣ make_offset_page_aligned page_size offset ∧
    make_offset_page_aligned page_size offset ≤ offset ∧
    offset - make_offset_page_aligned page_size offset < page_size ∧
    ∀ k, page_size ∣ k → k ≤ offset →
      k ≤ make_offset_page_aligned page_size offset := by
  unfold make_offset_page_aligned
  refine ⟨⟨offset / page_size, Nat.mul_comm _ _⟩, Nat.div_mul_le_self _ _, ?_, ?_⟩
  · have h1 := Nat.div_add_mod offset page_size
    have h2 := Nat.mod_lt offset hp
    rw [Nat.mul_comm (offset / page_size) page_size]
    omega
  · intro k hk hkle
    obtain ⟨j, rfl⟩ := hk
    have hj : j ≤ offset / page_size := by
      rw [Nat.le_div_iff_mul_le hp, Nat.mul_comm j page_size]
      exact hkle
    calc page_size * j ≤ page_size * (offset / page_size) :=
          Nat.mul_le_mul_left _ hj
      _ = offset / page_size * page_size := Nat.mul_comm _ _

/-- Witness for C7 at page size 16 and offset 20. -/
theorem make_offset_page_aligned_contract_witness :
    make_offset_page_aligned 16 20 ≤ 20 ∧
    20 - make_offset_page_aligned 16 20 < 16 :=
  ⟨(make_offset_page_aligned_contract 16 20 (by decide)).2.1,
   (make_offset_page_aligned_contract 16 20 (by decide)).2.2.1⟩

/-- Claim C6: after move construction or move assignment from a mapped
    object, the source object is unmapped (is_open is false), the
    destination holds exactly the fields the source held before (data
    pointer, length, mapped_length, file handle and ownership flag), and
    move assignment first releases whatever mapping the destination held
    (its trace is exactly the destination's unmap trace)
    (mmap.ipp lines 357-411). -/
theorem move_transfers_state (m dest : basic_mmap) :
    m.move_construct.2.is_open = false ∧
    m.move_construct.1 = m ∧
    (dest.move_assign m).2.1.is_open = false ∧
    (dest.move_assign m).1 = m ∧
    (dest.move_assign m).2.2 = dest.unmap.2 :=
  ⟨rfl, rfl, rfl, rfl, rfl⟩

/-- Claim C10: move construction resets the source's data pointer, lengths
    and file handle to the unmapped sentinels while leaving its ownership
    flag at its old value; since unmap returns immediately on an invalid
    file handle, unmapping or destroying the moved-from object performs no
    OS call at all, so the stale flag never causes a close or double
    release (mmap.ipp lines 357-375 and 585-587). -/
theorem moved_from_destruct_noop (os : OS) (mode : access_mode)
    (m : basic_mmap) :
    m.move_construct.2.is_handle_internal_ = m.is_handle_internal_ ∧
    m.move_construct.2.data_ = none ∧
    m.move_construct.2.length_ = 0 ∧
    m.move_construct.2.mapped_length_ = 0 ∧
    m.move_construct.2.file_handle_ = invalid_handle ∧
    m.move_construct.2.unmap = (m.move_construct.2, []) ∧
    m.move_construct.2.destruct os mode = [] := by
  refine ⟨rfl, rfl, rfl, rfl, rfl, rfl, ?_⟩
  cases mode <;> rfl

/-- On any failing map_handle call the object is returned unchanged and the
    trace contains no resource release. -/
theorem map_handle_fail_frame (os : OS) (m : basic_mmap) (handle : Int)
    (offset length : Nat)
    (h : ((m.map_handle os handle offset length).2.1).isSome = true) :
    (m.map_handle os handle offset length).1 = m ∧
    no_release (m.map_handle os handle offset length).2.2 = true := by
  by_cases hh : handle = invalid_handle
  · simp [basic_mmap.map_handle, hh, no_release]
  · cases hfs : os.fstat_size handle with
    | none =>
      simp [basic_mmap.map_handle, hh, hfs, no_release, Event.is_release]
    | some fs =>
      by_cases hb : (offset + length) % size_t_mod > fs
      · simp [basic_mmap.map_handle, hh, hfs, hb, no_release, Event.is_release]
      · cases hmm : (memory_map os handle offset
            (if length = map_entire_file then fs - offset else length)).1 with
        | none =>
          refine ⟨?_, ?_⟩ <;>
            simp [basic_mmap.map_handle, hh, hfs, hb, hmm, no_release,
              Event.is_release, memory_map_trace]
        | some ctx =>
          simp [basic_mmap.map_handle, hh, hfs, hb, hmm] at h

/-- On any successful map_handle call, given the queried file size, the
    trace is exactly: the fstat call, the successful mmap call, and then,
    last, the release calls of the previously held mapping; the new state
    holds the mapped context for the given handle with ownership cleared. -/
theorem map_handle_success_shape (os : OS) (m : basic_mmap) (handle : Int)
    (offset length fs : Nat)
    (hfs : os.fstat_size handle = some fs)
    (herr : (m.map_handle os handle offset length).2.1 = none) :
    handle ≠ invalid_handle ∧
    (m.map_handle os handle offset length).2.2 =
      (Event.fstat_call handle ::
        (memory_map os handle offset
          (if length = map_entire_file then fs - offset else length)).2) ++
        m.unmap.2 ∧
    no_release (Event.fstat_call handle ::
        (memory_map os handle offset
          (if length = map_entire_file then fs - offset else length)).2) = true ∧
    ∃ ctx, (memory_map os handle offset
        (if length = map_entire_file then fs - offset else length)).1 = some ctx ∧
      (m.map_handle os handle offset length).1 =
        { data_ := some ctx.data, length_ := ctx.length,
          mapped_length_ := ctx.mapped_length, file_handle_ := handle,
          is_handle_internal_ := false } := by
  by_cases hh : handle = invalid_handle
  · simp [basic_mmap.map_handle, hh] at herr
  · by_cases hb : (offset + length) % size_t_mod > fs
    · simp [basic_mmap.map_handle, hh, hfs, hb] at herr
    · cases hmm : (memory_map os handle offset
          (if length = map_entire_file then fs - offset else length)).1 with
      | none => simp [basic_mmap.map_handle, hh, hfs, hb, hmm] at herr
      | some ctx =>
        refine ⟨hh, ?_, ?_, ctx, rfl, ?_⟩
        · simp [basic_mmap.map_handle, hh, hfs, hb, hmm]
        · simp [no_release, Event.is_release, memory_map_trace]
        · simp [basic_mmap.map_handle, hh, hfs, hb, hmm]

/-- Claim C1: strong guarantee of remapping. If map(handle, offset, length)
    fails for any reason (invalid-handle sentinel, file-size query error,
    bounds-check error, or mapping-primitive error), every field of the
    object is exactly as before the call and nothing was released; on
    success, the trace consists of the file-size query and the successful
    mmap call, followed, as the very last steps, by the release of the
    previously held mapping (mmap.ipp lines 479-532). -/
theorem map_handle_strong_guarantee (os : OS) (m : basic_mmap) (handle : Int)
    (offset length : Nat) :
    (((m.map_handle os handle offset length).2.1).isSome = true →
        (m.map_handle os handle offset length).1 = m ∧
        no_release (m.map_handle os handle offset length).2.2 = true) ∧
    (∀ fs, os.fstat_size handle = some fs →
        (m.map_handle os handle offset length).2.1 = none →
        (m.map_handle os handle offset length).2.2 =
          (Event.fstat_call handle ::
            (memory_map os handle offset
              (if length = map_entire_file then fs - offset else length)).2) ++
            m.unmap.2 ∧
        no_release (Event.fstat_call handle ::
            (memory_map os handle offset
              (if length = map_entire_file then fs - offset else length)).2) = true ∧
        ((memory_map os handle offset
            (if length = map_entire_file then fs - offset else length)).1).isSome
          = true) :=
  ⟨fun h => map_handle_fail_frame os m handle offset length h,
   fun fs hfs herr => by
    obtain ⟨_, htr, hnr, ctx, hmm, _⟩ :=
      map_handle_success_shape os m handle offset length fs hfs herr
    exact ⟨htr, hnr, by simp [hmm]⟩⟩

/-- Witness for C1: a failing call (invalid handle) leaves the default
    object untouched, and a successful call at offset 20, length 5 on the
    100-byte file produces the fstat-mmap-release trace. -/
theorem map_handle_strong_guarantee_witness :
    (basic_mmap.default.map_handle os_ok invalid_handle 0 0).1 =
      basic_mmap.default ∧
    (basic_mmap.default.map_handle os_ok 5 20 5).2.2 =
      (Event.fstat_call 5 :: (memory_map os_ok 5 20 5).2) ++
        basic_mmap.default.unmap.2 :=
  ⟨((map_handle_strong_guarantee os_ok basic_mmap.default invalid_handle 0 0).1
      rfl).1,
   ((map_handle_strong_guarantee os_ok basic_mmap.default 5 20 5).2 100
      rfl rfl).1⟩

/-- Claim C2: alignment arithmetic of the mapping primitive. Whenever the OS
    mapping call succeeds, the returned context has length equal to the
    requested length, mapped_length equal to
    (offset - align_down(offset)) + length, and data equal to the OS base
    address plus offset - align_down(offset); hence
    mapped_length - length = offset - align_down(offset), which is exactly
    the value mapping_offset() reports on the state that stores this
    context (mmap.ipp lines 255-330, mmap.hpp lines 454-457). -/
theorem memory_map_alignment (os : OS) (fh : Int) (offset length : Nat)
    (ctx : mmap_context)
    (hc : (memory_map os fh offset length).1 = some ctx) :
    ctx.length = length ∧
    ctx.mapped_length =
      (offset - make_offset_page_aligned os.page_size offset) + length ∧
    (∃ base, os.mmap_sys fh (make_offset_page_aligned os.page_size offset)
        ((offset - make_offset_page_aligned os.page_size offset) + length) =
          some base ∧
      ctx.data = base + (offset - make_offset_page_aligned os.page_size offset)) ∧
    ctx.mapped_length - ctx.length =
      offset - make_offset_page_aligned os.page_size offset ∧
    basic_mmap.mapping_offset
        { data_ := some ctx.data, length_ := ctx.length,
          mapped_length_ := ctx.mapped_length, file_handle_ := fh,
          is_handle_internal_ := false } =
      offset - make_offset_page_aligned os.page_size offset := by
  rw [memory_map_fst] at hc
  rcases hb : os.mmap_sys fh (make_offset_page_aligned os.page_size offset)
      (offset - make_offset_page_aligned os.page_size offset + length)
    with _ | base
  · rw [hb] at hc; simp at hc
  · rw [hb] at hc
    obtain rfl : _ = ctx := Option.some.inj hc
    refine ⟨rfl, rfl, ⟨base, rfl, rfl⟩, ?_, ?_⟩ <;>
      simp [basic_mmap.mapping_offset]

/-- Witness for C2 at page size 16, offset 20, length 5 (base 4096):
    the context is (4100, 5, 9) and its padding is 20 - 16 = 4. -/
theorem memory_map_alignment_witness :
    mmap_context.mapped_length
        { data := 4100, length := 5, mapped_length := 9 } -
      mmap_context.length { data := 4100, length := 5, mapped_length := 9 } =
      20 - make_offset_page_aligned os_ok.page_size 20 :=
  (memory_map_alignment os_ok 5 20 5
    { data := 4100, length := 5, mapped_length := 9 } rfl).2.2.2.1

/-- Counterexample for C3: with offset = 2^64 - 1 and length = 2 on the
    10-byte file behind descriptor 3, the mathematical sum 2^64 + 1 exceeds
    the file length, but the size_t addition in the bounds check wraps to 1,
    the check passes, and the call succeeds instead of failing with
    invalid_argument. -/
theorem map_handle_overflow_cex :
    (2 ^ 64 - 1) + 2 > 10 ∧
    os_ok.fstat_size 3 = some 10 ∧
    (basic_mmap.default.map_handle os_ok 3 (2 ^ 64 - 1) 2).2.1 = none := by
  refine ⟨by norm_num, rfl, rfl⟩

/-- Claim C3 (amended): for every valid handle whose size query succeeds,
    when offset + length does not overflow size_t the call fails with
    invalid_argument whenever offset + length exceeds the file length (with
    64-bit wraparound the check can be bypassed, see the counterexample);
    and when length is the entire-file sentinel 0, a successful call maps
    exactly file_length - offset bytes (mmap.ipp lines 499-512). -/
theorem map_handle_bounds_check (os : OS) (m : basic_mmap) (handle : Int)
    (offset length fs : Nat)
    (hh : handle ≠ invalid_handle)
    (hfs : os.fstat_size handle = some fs)
    (hov : offset + length < size_t_mod) :
    (offset + length > fs →
      (m.map_handle os handle offset length).2.1 = some Err.invalid_argument) ∧
    (length = map_entire_file →
      (m.map_handle os handle offset length).2.1 = none →
      ((m.map_handle os handle offset length).1).length_ = fs - offset) := by
  have hmod : (offset + length) % size_t_mod = offset + length :=
    Nat.mod_eq_of_lt hov
  constructor
  · intro hgt
    simp [basic_mmap.map_handle, hh, hfs, hmod, hgt]
  · intro hlen herr
    subst hlen
    obtain ⟨_, _, _, ctx, hmm, hst⟩ :=
      map_handle_success_shape os m handle offset map_entire_file fs hfs herr
    simp only [if_pos rfl] at hmm
    have hctx := (memory_map_alignment os handle offset (fs - offset) ctx hmm).1
    rw [hst, hctx]

/-- Witness for C3: offset 101 + length 50 exceeds the 100-byte file and
    yields invalid_argument; mapping with the sentinel length 0 at offset 10
    maps 90 bytes. -/
theorem map_handle_bounds_check_witness :
    (basic_mmap.default.map_handle os_ok 5 101 50).2.1 =
      some Err.invalid_argument ∧
    (basic_mmap.default.map_handle os_ok 5 10 0).1.length_ = 100 - 10 :=
  ⟨(map_handle_bounds_check os_ok basic_mmap.default 5 101 50 100
      (by decide) rfl (by decide)).1 (by norm_num),
   (map_handle_bounds_check os_ok basic_mmap.default 5 10 0 100
      (by decide) rfl (by decide)).2 rfl rfl⟩

/-- The trace of open_file never releases a resource, and on success the
    returned handle is not the invalid sentinel. -/
theorem open_file_spec (os : OS) (path : String) :
    no_release (open_file os path).2.2 = true ∧
    ((open_file os path).2.1 = none → (open_file os path).1 ≠ invalid_handle) := by
  unfold open_file
  by_cases hp : path = ""
  · simp [hp, no_release]
  · by_cases ho : os.open_file_sys path = invalid_handle <;>
      simp [hp, ho, no_release, Event.is_release]

/-- unmap is a no-op (state unchanged, no OS call) when the file handle is
    the invalid sentinel. -/
theorem unmap_of_invalid (m : basic_mmap)
    (h : m.file_handle_ = invalid_handle) : m.unmap = (m, []) := by
  simp [basic_mmap.unmap, basic_mmap.is_open, h]

/-- After unmap, the data pointer is null, both lengths are zero and the
    file handle is invalid (given the object satisfied the unmapped
    invariant beforehand, needed only for the no-op branch). -/
theorem unmap_resets (m : basic_mmap) (hinv : m.unmapped_inv) :
    m.unmap.1.data_ = none ∧ m.unmap.1.length_ = 0 ∧
    m.unmap.1.mapped_length_ = 0 ∧
    m.unmap.1.file_handle_ = invalid_handle := by
  by_cases h : m.is_open = false
  · have hfh : m.file_handle_ = invalid_handle := by
      simpa [basic_mmap.is_open] using h
    rw [unmap_of_invalid m hfh]
    obtain ⟨h1, h2, h3⟩ := hinv hfh
    exact ⟨h1, h2, h3, hfh⟩
  · simp [basic_mmap.unmap, h]

/-- On a successful map_handle call the stored file handle is the given
    (valid) one and the ownership flag is cleared. -/
theorem map_handle_success_fh (os : OS) (m : basic_mmap) (handle : Int)
    (offset length : Nat)
    (herr : (m.map_handle os handle offset length).2.1 = none) :
    (m.map_handle os handle offset length).1.file_handle_ = handle ∧
    handle ≠ invalid_handle ∧
    (m.map_handle os handle offset length).1.is_handle_internal_ = false := by
  by_cases hh : handle = invalid_handle
  · simp [basic_mmap.map_handle, hh] at herr
  · cases hfs : os.fstat_size handle with
    | none => simp [basic_mmap.map_handle, hh, hfs] at herr
    | some fs =>
      by_cases hb : (offset + length) % size_t_mod > fs
      · simp [basic_mmap.map_handle, hh, hfs, hb] at herr
      · cases hmm : (memory_map os handle offset
            (if length = map_entire_file then fs - offset else length)).1 with
        | none => simp [basic_mmap.map_handle, hh, hfs, hb, hmm] at herr
        | some ctx =>
          refine ⟨?_, hh, ?_⟩ <;> simp [basic_mmap.map_handle, hh, hfs, hb, hmm]

/-- On any failing map_path call the object is returned unchanged and the
    trace contains no resource release: in particular the handle opened
    from the path, if any, is never closed. -/
theorem map_path_fail_frame (os : OS) (m : basic_mmap) (path : String)
    (offset length : Nat)
    (h : ((m.map_path os path offset length).2.1).isSome = true) :
    (m.map_path os path offset length).1 = m ∧
    no_release (m.map_path os path offset length).2.2 = true := by
  unfold basic_mmap.map_path at h ⊢
  by_cases hp : path = ""
  · simp [hp, no_release]
  · simp only [if_neg hp] at h ⊢
    cases hoe : (open_file os path).2.1 with
    | some e =>
      simp only [hoe] at h ⊢
      exact ⟨by trivial, (open_file_spec os path).1⟩
    | none =>
      simp only [hoe] at h ⊢
      cases hme : (m.map_handle os (open_file os path).1 offset length).2.1 with
      | some e =>
        simp only [hme] at h ⊢
        obtain ⟨he1, he2⟩ :=
          map_handle_fail_frame os m (open_file os path).1 offset length
            (by rw [hme]; rfl)
        refine ⟨he1, ?_⟩
        have hof1 := (open_file_spec os path).1
        simp only [no_release, List.all_append, Bool.and_eq_true] at he2 hof1 ⊢
        exact ⟨hof1, he2⟩
      | none => simp only [hme] at h; simp at h


/-- On a successful map_path call the ownership flag is set and the stored
    file handle is valid. -/
theorem map_path_success_state (os : OS) (m : basic_mmap) (path : String)
    (offset length : Nat)
    (herr : (m.map_path os path offset length).2.1 = none) :
    ((m.map_path os path offset length).1).is_handle_internal_ = true ∧
    ((m.map_path os path offset length).1).file_handle_ ≠ invalid_handle := by
  unfold basic_mmap.map_path at herr ⊢
  by_cases hp : path = ""
  · simp [hp] at herr
  · simp only [if_neg hp] at herr ⊢
    cases hoe : (open_file os path).2.1 with
    | some e => simp only [hoe] at herr; cases herr
    | none =>
      simp only [hoe] at herr ⊢
      cases hme : (m.map_handle os (open_file os path).1 offset length).2.1 with
      | some e => simp only [hme] at herr; cases herr
      | none =>
        simp only [hme] at herr ⊢
        obtain ⟨hfh, hne, _⟩ :=
          map_handle_success_fh os m (open_file os path).1 offset length hme
        refine ⟨by trivial, ?_⟩
        intro hc
        exact hne (hfh.symm.trans hc)

/-- Counterexample for C4: open of "f" succeeds with descriptor 5, the
    subsequent file-size query fails; map(path) returns the error but its
    trace contains no close of descriptor 5 — the newly opened handle is
    not closed before returning (it leaks). -/
theorem map_path_no_close_cex :
    ((basic_mmap.default.map_path os_badstat "f" 0 0).2.1).isSome = true ∧
    Event.open_call "f" 5 ∈
      (basic_mmap.default.map_path os_badstat "f" 0 0).2.2 ∧
    Event.close_call 5 ∉
      (basic_mmap.default.map_path os_badstat "f" 0 0).2.2 :=
  ⟨rfl, by decide, by decide⟩

/-- Claim C4 (amended): if map(path, offset, length) fails at any stage,
    the object's prior state is left untouched and no resource is released
    — in particular a handle opened from the path is NOT closed before
    returning (contrary to the original claim; see the counterexample);
    the handle is marked as owned exactly when the whole call succeeds
    (mmap.ipp lines 437-466). -/
theorem map_path_failure_cleanup (os : OS) (m : basic_mmap) (path : String)
    (offset length : Nat) :
    (((m.map_path os path offset length).2.1).isSome = true →
        (m.map_path os path offset length).1 = m ∧
        no_release (m.map_path os path offset length).2.2 = true) ∧
    ((m.map_path os path offset length).2.1 = none →
        ((m.map_path os path offset length).1).is_handle_internal_ = true ∧
        ((m.map_path os path offset length).1).file_handle_ ≠ invalid_handle) :=
  ⟨fun h => map_path_fail_frame os m path offset length h,
   fun h => map_path_success_state os m path offset length h⟩

/-- Witness for C4: the failing call above leaves the default object
    untouched; a successful map of "f" marks the handle as owned. -/
theorem map_path_failure_cleanup_witness :
    (basic_mmap.default.map_path os_badstat "f" 0 0).1 = basic_mmap.default ∧
    ((basic_mmap.default.map_path os_ok "f" 0 0).1).is_handle_internal_ = true :=
  ⟨((map_path_failure_cleanup os_badstat basic_mmap.default "f" 0 0).1 rfl).1,
   ((map_path_failure_cleanup os_ok basic_mmap.default "f" 0 0).2 rfl).1⟩

/-- Claim C5: unmap on an object whose file handle is the invalid sentinel
    is a no-op (state unchanged, no OS call); after any unmap the object is
    in the unmapped default state (null data pointer, zero lengths, invalid
    file handle), so a second unmap in a row, or unmap of a never-mapped
    object, releases no resource; and the invariant "invalid file handle
    implies null data pointer and zero lengths" holds after construction,
    map success or failure (by handle or by path), unmap, and move
    (mmap.ipp lines 584-618, mmap.hpp lines 206-230). -/
theorem unmap_idempotent_and_inv (os : OS) (m : basic_mmap)
    (hinv : m.unmapped_inv) :
    (m.file_handle_ = invalid_handle → m.unmap = (m, [])) ∧
    (m.unmap.1.data_ = none ∧ m.unmap.1.length_ = 0 ∧
      m.unmap.1.mapped_length_ = 0 ∧
      m.unmap.1.file_handle_ = invalid_handle) ∧
    m.unmap.1.unmap = (m.unmap.1, []) ∧
    basic_mmap.default.unmapped_inv ∧
    (∀ handle offset length,
      ((m.map_handle os handle offset length).1).unmapped_inv) ∧
    (∀ path offset length,
      ((m.map_path os path offset length).1).unmapped_inv) ∧
    m.unmap.1.unmapped_inv ∧
    m.move_construct.1.unmapped_inv ∧
    m.move_construct.2.unmapped_inv ∧
    (∀ d : basic_mmap,
      (d.move_assign m).1.unmapped_inv ∧
      (d.move_assign m).2.1.unmapped_inv) := by
  have hres := unmap_resets m hinv
  refine ⟨unmap_of_invalid m, hres, unmap_of_invalid _ hres.2.2.2,
    fun _ => ⟨rfl, rfl, rfl⟩, ?_, ?_, fun _ => ⟨hres.1, hres.2.1, hres.2.2.1⟩,
    hinv, fun _ => ⟨rfl, rfl, rfl⟩,
    fun d => ⟨hinv, fun _ => ⟨rfl, rfl, rfl⟩⟩⟩
  · intro handle offset length
    cases herr : (m.map_handle os handle offset length).2.1 with
    | some e =>
      have hfrm :=
        (map_handle_fail_frame os m handle offset length (by rw [herr]; rfl)).1
      rw [hfrm]; exact hinv
    | none =>
      obtain ⟨hfh, hne, _⟩ :=
        map_handle_success_fh os m handle offset length herr
      intro hc
      exact absurd (hfh.symm.trans hc) hne
  · intro path offset length
    cases herr : (m.map_path os path offset length).2.1 with
    | some e =>
      have hfrm :=
        (map_path_fail_frame os m path offset length (by rw [herr]; rfl)).1
      rw [hfrm]; exact hinv
    | none =>
      obtain ⟨_, hne⟩ := map_path_success_state os m path offset length herr
      intro hc
      exact absurd hc hne

/-- Witness for C5 on the default-constructed object. -/
theorem unmap_idempotent_and_inv_witness :
    basic_mmap.default.unmap = (basic_mmap.default, []) ∧
    basic_mmap.default.unmap.1.data_ = none :=
  ⟨(unmap_idempotent_and_inv os_ok basic_mmap.default
      (fun _ => ⟨rfl, rfl, rfl⟩)).1 rfl,
   (unmap_idempotent_and_inv os_ok basic_mmap.default
      (fun _ => ⟨rfl, rfl, rfl⟩)).2.1.1⟩

/-- basic_mmap::begin, const overload (mmap.hpp line 498): data(). -/
def basic_mmap.begin_c (m : basic_mmap) : Option Nat := m.data

/-- basic_mmap::end, const overload (mmap.hpp line 515): data() + length(). -/
def basic_mmap.end_c (m : basic_mmap) : Option Nat :=
  m.data.map (fun a => a + m.length)

/-- The shared wrapper as seen by its query operations: the pimpl_ pointer,
    which is null when the wrapper references no mapping object
    (shared_mmap.hpp line 111). -/
def basic_shared_mmap := Option basic_mmap

/-- basic_shared_mmap::is_open (shared_mmap.hpp line 298). -/
def basic_shared_mmap.is_open (p : basic_shared_mmap) : Bool :=
  match p with
  | none => false
  | some m => m.is_open

/-- basic_shared_mmap::is_mapped (shared_mmap.hpp line 305). -/
def basic_shared_mmap.is_mapped (p : basic_shared_mmap) : Bool :=
  match p with
  | none => false
  | some m => m.is_mapped

/-- basic_shared_mmap::empty (shared_mmap.hpp line 316). -/
def basic_shared_mmap.empty (p : basic_shared_mmap) : Bool :=
  match p with
  | none => true
  | some m => m.empty

/-- basic_shared_mmap::size (shared_mmap.hpp line 327). -/
def basic_shared_mmap.size (p : basic_shared_mmap) : Nat :=
  match p with
  | none => 0
  | some m => m.length

/-- basic_shared_mmap::length (shared_mmap.hpp line 334). -/
def basic_shared_mmap.length (p : basic_shared_mmap) : Nat :=
  match p with
  | none => 0
  | some m => m.length

/-- basic_shared_mmap::mapped_length (shared_mmap.hpp lines 343-346). -/
def basic_shared_mmap.mapped_length (p : basic_shared_mmap) : Nat :=
  match p with
  | none => 0
  | some m => m.mapped_length

/-- basic_shared_mmap::data, const overload (shared_mmap.hpp line 371). -/
def basic_shared_mmap.data_c (p : basic_shared_mmap) : Option Nat :=
  match p with
  | none => none
  | some m => m.data

/-- basic_shared_mmap::file_handle (shared_mmap.hpp lines 268-271). -/
def basic_shared_mmap.file_handle (p : basic_shared_mmap) : Int :=
  match p with
  | none => invalid_handle
  | some m => m.file_handle_

/-- basic_shared_mmap::mapping_handle (shared_mmap.hpp lines 281-284,
    POSIX: basic_mmap::mapping_handle returns the file handle). -/
def basic_shared_mmap.mapping_handle (p : basic_shared_mmap) : Int :=
  match p with
  | none => invalid_handle
  | some m => m.file_handle_

/-- basic_shared_mmap::begin, const overload (shared_mmap.hpp lines
    392-395): asserts pimpl_ and dereferences it; on a null pimpl_ this is
    an assertion failure (debug) or a null dereference (release), modelled
    as an error result rather than a value. -/
def basic_shared_mmap.begin_c (p : basic_shared_mmap) :
    Except Unit (Option Nat) :=
  match p with
  | none => Except.error ()
  | some m => Except.ok m.begin_c

/-- basic_shared_mmap::end, const overload (shared_mmap.hpp lines 418-421):
    same null-pimpl_ assertion as begin. -/
def basic_shared_mmap.end_c (p : basic_shared_mmap) :
    Except Unit (Option Nat) :=
  match p with
  | none => Except.error ()
  | some m => Except.ok m.end_c

/-- Counterexample for C9: on a wrapper referencing nothing, begin() and
    end() do not yield an empty range — they trip the assert on the null
    pimpl_ pointer (null dereference in release builds) instead of
    returning iterators (shared_mmap.hpp lines 392-427). -/
theorem shared_begin_end_empty_cex :
    basic_shared_mmap.begin_c (none : basic_shared_mmap) = Except.error () ∧
    basic_shared_mmap.end_c (none : basic_shared_mmap) = Except.error () :=
  ⟨rfl, rfl⟩

/-- Claim C9 (amended): on a shared wrapper that references no mapping
    object, every scalar query returns the defined default — size, length
    and mapped_length are 0, data is null, file_handle and mapping_handle
    are the invalid sentinel, is_open and is_mapped are false, empty is
    true — but begin()/end() assert on the null pointer instead of
    yielding an empty range (shared_mmap.hpp lines 268-427). -/
theorem shared_empty_query_defaults :
    basic_shared_mmap.size (none : basic_shared_mmap) = 0 ∧
    basic_shared_mmap.length (none : basic_shared_mmap) = 0 ∧
    basic_shared_mmap.mapped_length (none : basic_shared_mmap) = 0 ∧
    basic_shared_mmap.data_c (none : basic_shared_mmap) = none ∧
    basic_shared_mmap.file_handle (none : basic_shared_mmap) = invalid_handle ∧
    basic_shared_mmap.mapping_handle (none : basic_shared_mmap) =
      invalid_handle ∧
    basic_shared_mmap.is_open (none : basic_shared_mmap) = false ∧
    basic_shared_mmap.is_mapped (none : basic_shared_mmap) = false ∧
    basic_shared_mmap.empty (none : basic_shared_mmap) = true ∧
    basic_shared_mmap.begin_c (none : basic_shared_mmap) = Except.error () ∧
    basic_shared_mmap.end_c (none : basic_shared_mmap) = Except.error () :=
  ⟨rfl, rfl, rfl, rfl, rfl, rfl, rfl, rfl, rfl, rfl, rfl⟩

/-- A reference-counted cell holding the shared mapping object: use_count
    is the number of wrappers currently referencing it (the std::shared_ptr
    control block behind pimpl_, shared_mmap.hpp line 111). -/
structure shared_cell where
  use_count : Nat
  obj : basic_mmap
  deriving DecidableEq

/-- Destruction or reassignment of one referencing wrapper (std::shared_ptr
    semantics): the count drops by one; only when the last reference is
    dropped is the held basic_mmap destroyed, running its destructor. -/
def shared_destroy (os : OS) (mode : access_mode) (c : shared_cell) :
    Option shared_cell × List Event :=
  if c.use_count ≤ 1 then (none, c.obj.destruct os mode)
  else (some { c with use_count := c.use_count - 1 }, [])

/-- basic_shared_mmap::unmap (shared_mmap.hpp line 605): if pimpl_ is
    non-null it calls unmap() on the shared object itself, regardless of
    how many wrappers reference it; the reference count is unchanged. -/
def shared_unmap (c : shared_cell) : shared_cell × List Event :=
  ({ c with obj := c.obj.unmap.1 }, c.obj.unmap.2)

/-- A live read-only mapping of 100 bytes at base 4096 on descriptor 3,
    handle owned by the caller. -/
def demo_obj : basic_mmap :=
  { data_ := some 4096, length_ := 100, mapped_length_ := 100,
    file_handle_ := 3, is_handle_internal_ := false }

/-- Claim C8 is violated by basic_shared_mmap::unmap: with two wrappers
    referencing the same cell holding a live mapping, destroying one
    wrapper releases nothing (correct shared_ptr behaviour), and the last
    destruction does release the mapping; but unmap() called through one
    wrapper releases the OS mapping immediately (munmap appears in its
    trace) while the use count is still 2, leaving the other owner with an
    unmapped object — the mapping is released while another wrapper still
    references it, contrary to the claim and to the function's own
    documentation ("Otherwise, other shared_mmaps continue to have
    access"). -/
theorem shared_unmap_releases_while_shared :
    (shared_destroy os_ok access_mode.read
        { use_count := 2, obj := demo_obj }).2 = [] ∧
    (shared_destroy os_ok access_mode.read
        { use_count := 1, obj := demo_obj }).2 =
      [Event.munmap_call 4096 100] ∧
    (shared_unmap { use_count := 2, obj := demo_obj }).2 =
      [Event.munmap_call 4096 100] ∧
    (shared_unmap { use_count := 2, obj := demo_obj }).1.use_count = 2 ∧
    (shared_unmap
        { use_count := 2, obj := demo_obj }).1.obj.is_open = false :=
  ⟨rfl, rfl, rfl, rfl, rfl⟩

end Mio
